import Mathlib

/-!
# Verification of the EmPOWER LVAP binding model and Summary telemetry module

Shallow embedding of `empower/core/lvap.py` and `empower/triggers/summary.py`.
Ethernet addresses are modelled as natural numbers; collaborator classes that
live outside the two source files (ResourcePool, RadioPort tables, the module
worker registry) are modelled from the specification where noted.
-/

namespace Empower

/-- Modelled from the spec: a ResourceBlock identifies a radio resource by the
owning access point, hardware address, channel and band (`resourcepool.py` is a
collaborator outside the two source files). Equality is structural, following
§3: "Equality and hashing are by (access-point identity, hardware address,
channel, band)". -/
structure ResourceBlock where
  radio : Nat
  hwaddr : Nat
  channel : Nat
  band : Nat
deriving DecidableEq, Repr

/-- Modelled from the spec: a ResourcePool is a duplicate-free set of
ResourceBlocks; we embed it as a list, with `pop()` taking the first element in
iteration order (the spec allows any documented tie-break). -/
abbrev ResourcePool := List ResourceBlock

/-- Modelled from the spec: ResourcePool equality is set equality (§3). -/
def poolEq (p q : ResourcePool) : Bool :=
  p.all (fun b => q.contains b) && q.all (fun b => p.contains b)

/-! ## Wire codec: telemetry response decoding (`Summary.handle_response`) -/

/-- Modelled from the spec: `BT_L20` is the band identifier of the 20 MHz
legacy band, imported from `resourcepool.py`; its concrete value is irrelevant
to the decode logic, which only compares the bound block's band with it. -/
def BT_L20 : Nat := 0

/-- One raw entry of a telemetry response (`SUMMARY_ENTRY` in summary.py):
source address, timestamp, sequence, signed RSSI, rate code, frame type code,
frame subtype code, length. Index order follows the construct Sequence. -/
structure SummaryEntry where
  addr : Nat
  tsft : Nat
  seq : Nat
  rssi : Int
  rate : Nat
  ty : Nat
  subtype : Nat
  length : Nat
deriving DecidableEq, Repr

/-- The decoded subtype is either one of the five symbolic names or the raw
numeric code (`pt_subtype` in `Summary.handle_response` is either a string or
the raw integer `recv[6]`). -/
inductive PtSubtype where
  | tag (s : String)
  | raw (n : Nat)
deriving DecidableEq, Repr

/-- A decoded frame dictionary as built by `Summary.handle_response`. -/
structure Frame where
  tsft : Nat
  seq : Nat
  rssi : Int
  rate : ℚ
  ty : String
  subtype : PtSubtype
  length : Nat
deriving DecidableEq, Repr

/-- The frame-type branch of `Summary.handle_response` (summary.py lines
292-299). -/
def decodePtType (t : Nat) : String :=
  if t = 0x00 then "MNGT"
  else if t = 0x04 then "CTRL"
  else if t = 0x08 then "DATA"
  else "UNKN"

/-- The frame-subtype branch of `Summary.handle_response` (summary.py lines
301-312); note it does not consult the frame type. -/
def decodePtSubtype (s : Nat) : PtSubtype :=
  if s = 0x00 then .tag "ASSOC_REQ"
  else if s = 0x10 then .tag "ASSOC_RESP"
  else if s = 0x20 then .tag "AUTH_REQ"
  else if s = 0x30 then .tag "AUTH_RESP"
  else if s = 0x80 then .tag "BEACON"
  else .raw s

/-- The per-entry body of the loop in `Summary.handle_response` (summary.py
lines 285-322): rate is halved when the bound block's band is `BT_L20`. -/
def decodeFrame (band : Nat) (e : SummaryEntry) : Frame :=
  { tsft := e.tsft
    seq := e.seq
    rssi := e.rssi
    rate := if band = BT_L20 then (e.rate : ℚ) / 2 else (e.rate : ℚ)
    ty := decodePtType e.ty
    subtype := decodePtSubtype e.subtype
    length := e.length }

/-- `Summary.handle_response` rebuilds `self.frames` as the decoded entries of
the incoming response, in order. -/
def handleResponseFrames (band : Nat) (entries : List SummaryEntry) : List Frame :=
  entries.map (decodeFrame band)

/-! ## LVAP state, wire messages and events (`empower/core/lvap.py`) -/

/-- The client-global attributes carried by an "add client" wire message
(SSIDs, association id, encapsulation address, associated SSID). -/
structure LvapAttrs where
  encap : Nat
  assocId : Nat
  ssid : Option String
  ssids : List String
deriving DecidableEq, Repr

/-- Wire messages emitted by the embedded code. `addLvap dst attrs block
replace` is `send_add_lvap(lvap, block, mask)` sent on the connection of the
access point `dst`; `replace` is true for the downlink table's `SET_MASK` and
false for the uplink table's merge mask. `delSummary dst mid` is the
`DEL_SUMMARY` teardown of summary.py. -/
inductive WireMsg where
  | addLvap (dst : Nat) (attrs : LvapAttrs) (block : ResourceBlock) (replace : Bool)
  | delLvap (dst : Nat) (block : ResourceBlock)
  | delSummary (dst : Nat) (moduleId : Nat)
deriving DecidableEq, Repr

/-- Events produced by LVAP operations: wire messages plus the local
`set_ports` / `clear_tables` / `set_tables` calls of lvap.py (whose bodies talk
to the flow-table and virtual-port collaborators outside the two source
files). -/
inductive Event where
  | wire (m : WireMsg)
  | setPorts
  | clearTables
  | setTables
deriving DecidableEq, Repr

/-- The LVAP state relevant to the claims: client-global attributes plus the
downlink and uplink port-table keys. Port values are always the default
`RadioPort(self, block)`, so the tables are represented by their key lists
(downlink holds at most one key, uplink zero or more, per §3). -/
structure Lvap where
  addr : Nat
  encap : Nat
  assocId : Nat
  ssid : Option String
  ssids : List String
  downlink : List ResourceBlock
  uplink : List ResourceBlock
deriving DecidableEq, Repr

/-- The attribute snapshot an "add client" message carries. -/
def Lvap.attrs (l : Lvap) : LvapAttrs :=
  { encap := l.encap, assocId := l.assocId, ssid := l.ssid, ssids := l.ssids }

/-- The message fan-out shared by the `encap`, `assoc_id` and `ssid` setters:
one `send_add_lvap` per downlink entry (SET_MASK / replace) followed by one per
uplink entry (merge mask), as in lvap.py lines 253-261. -/
def sendAddAll (l : Lvap) : List Event :=
  l.downlink.map (fun b => .wire (.addLvap b.radio l.attrs b true)) ++
    l.uplink.map (fun b => .wire (.addLvap b.radio l.attrs b false))

/-- `LVAP.encap` setter (lvap.py lines 241-261): `None` becomes the zero
address, an equal value is a silent no-op, a new value is stored and re-sent to
every bound downlink and uplink entry. -/
def setEncap (l : Lvap) (encap : Option Nat) : Lvap × List Event :=
  let e := encap.getD 0
  if l.encap = e then (l, [])
  else
    let l' := { l with encap := e }
    (l', sendAddAll l')

/-- `LVAP.assoc_id` setter (lvap.py lines 269-286). -/
def setAssocId (l : Lvap) (assocId : Nat) : Lvap × List Event :=
  if l.assocId = assocId then (l, [])
  else
    let l' := { l with assocId := assocId }
    (l', sendAddAll l')

/-- `LVAP.ssid` setter (lvap.py lines 306-323). -/
def setSsid (l : Lvap) (ssid : Option String) : Lvap × List Event :=
  if l.ssid = ssid then (l, [])
  else
    let l' := { l with ssid := ssid }
    (l', sendAddAll l')

/-- `LVAP.ssids` setter (lvap.py lines 294-298): it only stores the new list;
no comparison with the current value and no wire message. -/
def setSsids (l : Lvap) (ssids : List String) : Lvap × List Event :=
  ({ l with ssids := ssids }, [])

/-! ## The downlink setter (`LVAP.downlink`, lvap.py lines 343-411) -/

/-- The argument accepted by the downlink setter: a ResourcePool, a lone
ResourceBlock, `None` (falsy, a no-op), or a truthy value of any other type
(which raises `TypeError`). -/
inductive DownlinkArg where
  | pool (p : ResourcePool)
  | block (b : ResourceBlock)
  | nothing
  | badType
deriving DecidableEq, Repr

/-- Result of the downlink setter: a `TypeError`, or the new LVAP state, the
final state of the caller's pool argument (`none` when the argument was not a
pool), and the emitted event trace. -/
inductive SetDownlinkResult where
  | typeError
  | ok (l : Lvap) (poolAfter : Option ResourcePool) (trace : List Event)
deriving DecidableEq, Repr

/-- Modelled from the spec (§4.2): deleting a port-table entry sends a
"delete client" wire message to the block's access point, skipped silently when
that access point's connection is already closed (`connOpen` gives each
connection's state; the port-table classes live outside the two source
files). -/
def delPortEvents (connOpen : Nat → Bool) (b : ResourceBlock) : List Event :=
  if connOpen b.radio then [.wire (.delLvap b.radio b)] else []

/-- Modelled from the spec (§4.2): inserting a port-table entry sends an
"add client" wire message carrying the current client attributes to the
block's access point; `replace` is true for the downlink table, false for the
uplink table. -/
def addPortEvent (l : Lvap) (b : ResourceBlock) (replace : Bool) : Event :=
  .wire (.addLvap b.radio l.attrs b replace)

/-- Body of the downlink setter once the argument has been normalised to a
nonempty pool (lvap.py lines 375-411). When the pool is set-equal to the
current combined binding: refresh only (`set_ports`; `clear_tables`;
`set_tables`). Otherwise: `clear_tables`, delete every downlink and uplink
entry (each firing the §4.2 teardown), `pop()` the first block as the sole
downlink entry, `set_ports`, `set_tables`, and bind the remaining blocks as
uplink entries. Returns the new state, the final state of the (aliased) pool
argument, and the trace. -/
def setDownlinkCore (connOpen : Nat → Bool) (l : Lvap) (pool : ResourcePool) :
    Lvap × ResourcePool × List Event :=
  let current : ResourcePool := l.downlink ++ l.uplink
  if poolEq current pool then
    (l, pool, [.setPorts, .clearTables, .setTables])
  else
    match pool with
    | [] => (l, [], [.clearTables])
    | b :: rest =>
      let evDel := ((l.downlink ++ l.uplink).map (delPortEvents connOpen)).flatten
      let l' := { l with downlink := [b], uplink := rest }
      (l', rest,
        .clearTables :: evDel ++
          [addPortEvent l' b true, .setPorts, .setTables] ++
          rest.map (fun blk => addPortEvent l' blk false))

/-- `LVAP.downlink` setter (lvap.py lines 343-411). A falsy argument (`None`
or an empty pool) returns immediately; a lone block is wrapped into a fresh
singleton pool (so the caller's argument is never mutated on that path); any
other truthy type raises `TypeError`. -/
def lvapSetDownlink (connOpen : Nat → Bool) (l : Lvap) (arg : DownlinkArg) :
    SetDownlinkResult :=
  match arg with
  | .nothing => .ok l none []
  | .badType => .typeError
  | .block b =>
    let r := setDownlinkCore connOpen l [b]
    .ok r.1 none r.2.2
  | .pool p =>
    if p.isEmpty then .ok l (some p) []
    else
      let r := setDownlinkCore connOpen l p
      .ok r.1 (some r.2.1) r.2.2

/-- An access point: its address and its supported-resources pool. -/
structure Wtp where
  addr : Nat
  supports : ResourcePool
deriving DecidableEq, Repr

/-- Modelled from the spec (§4.4): the handover intersection matches blocks
"by value, i.e. same hardware address/channel/band family, different owning
access point". -/
def blockMatch (a b : ResourceBlock) : Bool :=
  a.hwaddr == b.hwaddr && a.channel == b.channel && a.band == b.band

/-- `LVAP.wtp` setter (lvap.py lines 449-455): take the current default block
(first downlink key; `none` models the `StopIteration` on an empty table),
intersect the target's supported pool with its singleton, and assign the popped
match — or `None` when the intersection is empty — to `scheduled_on`, i.e. the
downlink setter. -/
def lvapSetWtp (connOpen : Nat → Bool) (l : Lvap) (w : Wtp) :
    Option SetDownlinkResult :=
  match l.downlink.head? with
  | none => none
  | some db =>
    let matching := w.supports.filter (fun b => blockMatch b db)
    match matching.head? with
    | none => some (lvapSetDownlink connOpen l .nothing)
    | some b => some (lvapSetDownlink connOpen l (.block b))

/-! ## Summary module lifecycle (`empower/triggers/summary.py`) -/

/-- The per-module state the lifecycle claims need: module id and bound
resource block. -/
structure SummaryModule where
  moduleId : Nat
  block : ResourceBlock
deriving DecidableEq, Repr

/-- The worker's registry of module id to bound block (the `modules` dict of
`ModuleLVAPPWorker`). -/
abbrev Registry := List (Nat × ResourceBlock)

/-- Modelled from the spec (§4.5): `ModuleLVAPPWorker.remove_module`
(`lvappserver.py` is outside the two source files) deregisters the module id
from the worker's registry; removing an absent id is a no-op and no wire
message is sent. -/
def remove_module (reg : Registry) (mid : Nat) : Registry :=
  reg.filter (fun m => m.1 != mid)

/-- `Summary.unload` (summary.py lines 242-260): deregister from the worker's
registry, then — only when the block's access point has an open connection —
build and send the `DEL_SUMMARY` teardown carrying the module id. -/
def unload (connOpen : Nat → Bool) (reg : Registry) (m : SummaryModule) :
    Registry × List WireMsg :=
  let reg' := remove_module reg m.moduleId
  if connOpen m.block.radio then
    (reg', [.delSummary m.block.radio m.moduleId])
  else
    (reg', [])

/-- `SummaryWorker.handle_bye` (summary.py lines 330-341): collect the ids of
the modules whose bound block is in the leaving access point's supported pool,
then remove each via `remove_module`; no wire message is sent on this path. -/
def handle_bye (reg : Registry) (w : Wtp) : Registry × List WireMsg :=
  let toBeRemoved :=
    (reg.filter (fun m => m.2 ∈ w.supports)).map Prod.fst
  (toBeRemoved.foldl remove_module reg, [])

/-- A dict descriptor passed to `Summary.block`: each required field is
present (`some`) or absent (`none`); address-valued fields are modelled as
numbers. -/
structure BlockDescriptor where
  wtp : Option Nat
  hwaddr : Option Nat
  channel : Option Nat
  band : Option Nat
deriving DecidableEq, Repr

/-- A value passed to the `Summary.block` setter: a ResourceBlock, a dict
descriptor, or a value of any other type (string, integer, ...). -/
inductive BlockValue where
  | rb (b : ResourceBlock)
  | dict (d : BlockDescriptor)
  | other
deriving DecidableEq, Repr

/-- The errors the `Summary.block` setter can raise on the dict path:
`keyError "wtp"` is the `KeyError` raised by `value['wtp']` when the field is
absent; `unknownWtp a` the `KeyError` raised by `RUNTIME.wtps[a]`;
`missingField f` the `ValueError("Missing field: f")` checks; `noMatch` the
`ValueError("No block specified")`; `ambiguous` the
`ValueError("More than one block specified")`. -/
inductive BlockErr where
  | keyError (k : String)
  | unknownWtp (a : Nat)
  | missingField (f : String)
  | noMatch
  | ambiguous
deriving DecidableEq, Repr

/-- The candidate ResourceBlock the `Summary.block` setter builds from a
complete descriptor: `ResourceBlock(wtp, EtherAddress(value['hwaddr']),
int(value['channel']), int(value['band']))`. -/
def descBlock (w : Wtp) (d : BlockDescriptor) : ResourceBlock :=
  { radio := w.addr
    hwaddr := d.hwaddr.getD 0
    channel := d.channel.getD 0
    band := d.band.getD 0 }

/-- `Summary.block` setter (summary.py lines 128-165), following the source's
evaluation order: a ResourceBlock is stored directly; a dict first evaluates
`RUNTIME.wtps[EtherAddress(value['wtp'])]` (so a missing `wtp` field raises
`KeyError` before any `ValueError` check), then checks `hwaddr`, `channel`,
`band` presence, builds the candidate block, intersects it with the access
point's supported pool and stores the match if it is unique; any other type
falls through both `isinstance` branches and leaves the attribute unchanged.
Returns the new value of `_block` paired with the raised error, if any (on an
error `_block` keeps its old value). `wtps` is the `RUNTIME.wtps` registry. -/
def summarySetBlock (wtps : List (Nat × Wtp)) (cur : Option ResourceBlock)
    (v : BlockValue) : Option ResourceBlock × Option BlockErr :=
  match v with
  | .rb b => (some b, none)
  | .other => (cur, none)
  | .dict d =>
    match d.wtp with
    | none => (cur, some (.keyError "wtp"))
    | some waddr =>
      match wtps.lookup waddr with
      | none => (cur, some (.unknownWtp waddr))
      | some w =>
        if d.hwaddr.isNone then (cur, some (.missingField "hwaddr"))
        else if d.channel.isNone then (cur, some (.missingField "channel"))
        else if d.band.isNone then (cur, some (.missingField "band"))
        else
          match w.supports.filter (fun x => x == descBlock w d) with
          | [] => (cur, some .noMatch)
          | [x] => (some x, none)
          | _ :: _ :: _ => (cur, some .ambiguous)

/-! ## Trace observations -/

/-- The blocks for which a trace carries a "delete client" wire message, in
order. -/
def delBlocks (t : List Event) : List ResourceBlock :=
  t.filterMap fun e =>
    match e with
    | .wire (.delLvap _ b) => some b
    | _ => none

/-- The blocks for which a trace carries an "add client" wire message, in
order. -/
def addBlocks (t : List Event) : List ResourceBlock :=
  t.filterMap fun e =>
    match e with
    | .wire (.addLvap _ _ b _) => some b
    | _ => none

/-- The blocks added with replace semantics (the downlink table's SET_MASK). -/
def addBlocksRepl (t : List Event) : List ResourceBlock :=
  t.filterMap fun e =>
    match e with
    | .wire (.addLvap _ _ b true) => some b
    | _ => none

/-- The blocks added with merge semantics (the uplink table's mask). -/
def addBlocksMerge (t : List Event) : List ResourceBlock :=
  t.filterMap fun e =>
    match e with
    | .wire (.addLvap _ _ b false) => some b
    | _ => none

/-- The wire messages of a trace (ignoring local flow-table and virtual-port
events). -/
def wireMsgs (t : List Event) : List WireMsg :=
  t.filterMap fun e =>
    match e with
    | .wire m => some m
    | _ => none

theorem sendAddAll_length (l : Lvap) :
    (sendAddAll l).length = l.downlink.length + l.uplink.length := by
  simp [sendAddAll]

/-! ## Claim C1: telemetry subtype decoding -/

/-- C1 counterexample: the claim states that an entry with frame type `0x08`
and subtype `0x00` decodes to type "DATA" with raw subtype `0`; in the code the
subtype branch never consults the frame type, so the entry decodes to subtype
"ASSOC_REQ", not the raw value `0`. -/
theorem c1_data_frame_subtype_counterexample :
    (decodeFrame 1 ⟨0, 0, 0, 0, 0, 0x08, 0x00, 0⟩).ty = "DATA" ∧
    (decodeFrame 1 ⟨0, 0, 0, 0, 0, 0x08, 0x00, 0⟩).subtype = .tag "ASSOC_REQ" ∧
    PtSubtype.tag "ASSOC_REQ" ≠ PtSubtype.raw 0 := by
  decide

/-- C1 (amended): subtype codes `0x00/0x10/0x20/0x30/0x80` decode to
ASSOC_REQ/ASSOC_RESP/AUTH_REQ/AUTH_RESP/BEACON and any other subtype code
passes through as its raw numeric value, *regardless of the frame type*: in
particular an entry with type `0x08` and subtype `0x00` decodes to type "DATA"
with subtype "ASSOC_REQ" (not raw `0`), and an unmapped subtype such as `0x99`
decodes to the raw value `0x99`. -/
theorem c1_subtype_decode (e : SummaryEntry) (band : Nat) :
    (e.subtype = 0x00 → (decodeFrame band e).subtype = .tag "ASSOC_REQ") ∧
    (e.subtype = 0x10 → (decodeFrame band e).subtype = .tag "ASSOC_RESP") ∧
    (e.subtype = 0x20 → (decodeFrame band e).subtype = .tag "AUTH_REQ") ∧
    (e.subtype = 0x30 → (decodeFrame band e).subtype = .tag "AUTH_RESP") ∧
    (e.subtype = 0x80 → (decodeFrame band e).subtype = .tag "BEACON") ∧
    (e.subtype ≠ 0x00 → e.subtype ≠ 0x10 → e.subtype ≠ 0x20 → e.subtype ≠ 0x30 →
      e.subtype ≠ 0x80 → (decodeFrame band e).subtype = .raw e.subtype) ∧
    (e.ty = 0x08 → (decodeFrame band e).ty = "DATA") ∧
    (decodeFrame band { e with ty := 0x08, subtype := 0x00 }).subtype =
      .tag "ASSOC_REQ" ∧
    (decodeFrame band { e with ty := 0x08, subtype := 0x00 }).ty = "DATA" ∧
    (decodeFrame band { e with subtype := 0x99 }).subtype = .raw 0x99 := by
  refine ⟨?_, ?_, ?_, ?_, ?_, ?_, ?_, ?_, ?_, ?_⟩
  · intro h; simp [decodeFrame, decodePtSubtype, h]
  · intro h; simp [decodeFrame, decodePtSubtype, h]
  · intro h; simp [decodeFrame, decodePtSubtype, h]
  · intro h; simp [decodeFrame, decodePtSubtype, h]
  · intro h; simp [decodeFrame, decodePtSubtype, h]
  · intro h0 h1 h2 h3 h4; simp [decodeFrame, decodePtSubtype, h0, h1, h2, h3, h4]
  · intro h; simp [decodeFrame, decodePtType, h]
  · simp [decodeFrame, decodePtSubtype]
  · simp [decodeFrame, decodePtType]
  · simp [decodeFrame, decodePtSubtype]

/-- C1 witness: the amended theorem applied to a concrete entry with type
`0x08` and unmapped subtype `0x99`. -/
theorem c1_subtype_decode_witness :
    (decodeFrame 0 ⟨0, 0, 0, 0, 0, 0x08, 0x99, 0⟩).subtype = .raw 0x99 ∧
    (decodeFrame 0 ⟨0, 0, 0, 0, 0, 0x08, 0x99, 0⟩).ty = "DATA" := by
  have h := c1_subtype_decode ⟨0, 0, 0, 0, 0, 0x08, 0x99, 0⟩ 0
  exact ⟨h.2.2.2.2.2.1 (by decide) (by decide) (by decide) (by decide) (by decide),
    h.2.2.2.2.2.2.1 (by decide)⟩

/-! ## Claim C10: foreign types silently ignored by the block setter -/

/-- C10: a value that is neither a ResourceBlock nor a dict passed to
`Summary.block` falls through both `isinstance` branches: no error is raised
and the module's block attribute is unchanged. -/
theorem c10_block_other_type_noop (wtps : List (Nat × Wtp))
    (cur : Option ResourceBlock) :
    summarySetBlock wtps cur .other = (cur, none) := rfl

/-! ## Claim C8: validation in the block setter's dict path -/

/-- C8: a dict descriptor missing a required field is rejected with a
missing-field error (`KeyError('wtp')` when the `wtp` key itself is absent,
since `value['wtp']` is evaluated first; `ValueError("Missing field: ...")`
for the others); a complete descriptor matching zero supported blocks of the
named access point is rejected with the "no match" condition; one matching
more than one block is rejected with the "ambiguous match" condition; in every
rejected case the module's block attribute is unchanged. -/
theorem c8_block_setter_validation (wtps : List (Nat × Wtp))
    (cur : Option ResourceBlock) :
    (∀ d : BlockDescriptor, d.wtp = none →
      summarySetBlock wtps cur (.dict d) = (cur, some (.keyError "wtp"))) ∧
    (∀ (d : BlockDescriptor) (waddr : Nat) (w : Wtp), d.wtp = some waddr →
      wtps.lookup waddr = some w → d.hwaddr = none →
      summarySetBlock wtps cur (.dict d) = (cur, some (.missingField "hwaddr"))) ∧
    (∀ (d : BlockDescriptor) (waddr : Nat) (w : Wtp), d.wtp = some waddr →
      wtps.lookup waddr = some w → d.hwaddr.isSome → d.channel = none →
      summarySetBlock wtps cur (.dict d) = (cur, some (.missingField "channel"))) ∧
    (∀ (d : BlockDescriptor) (waddr : Nat) (w : Wtp), d.wtp = some waddr →
      wtps.lookup waddr = some w → d.hwaddr.isSome → d.channel.isSome →
      d.band = none →
      summarySetBlock wtps cur (.dict d) = (cur, some (.missingField "band"))) ∧
    (∀ (d : BlockDescriptor) (waddr : Nat) (w : Wtp), d.wtp = some waddr →
      wtps.lookup waddr = some w → d.hwaddr.isSome → d.channel.isSome →
      d.band.isSome → w.supports.filter (fun x => x == descBlock w d) = [] →
      summarySetBlock wtps cur (.dict d) = (cur, some .noMatch)) ∧
    (∀ (d : BlockDescriptor) (waddr : Nat) (w : Wtp)
        (x y : ResourceBlock) (rest : List ResourceBlock), d.wtp = some waddr →
      wtps.lookup waddr = some w → d.hwaddr.isSome → d.channel.isSome →
      d.band.isSome →
      w.supports.filter (fun x => x == descBlock w d) = x :: y :: rest →
      summarySetBlock wtps cur (.dict d) = (cur, some .ambiguous)) := by
  refine ⟨?_, ?_, ?_, ?_, ?_, ?_⟩
  · intro d h
    simp [summarySetBlock, h]
  · intro d waddr w hw hl hh
    simp [summarySetBlock, hw, hl, hh]
  · intro d waddr w hw hl hh hc
    simp [summarySetBlock, hw, hl, Option.isNone_iff_eq_none.not.mpr,
      Option.isSome_iff_ne_none.mp hh, hc]
  · intro d waddr w hw hl hh hc hb
    simp [summarySetBlock, hw, hl, Option.isSome_iff_ne_none.mp hh,
      Option.isSome_iff_ne_none.mp hc, hb]
  · intro d waddr w hw hl hh hc hb hm
    simp [summarySetBlock, hw, hl, Option.isSome_iff_ne_none.mp hh,
      Option.isSome_iff_ne_none.mp hc, Option.isSome_iff_ne_none.mp hb, hm]
  · intro d waddr w x y rest hw hl hh hc hb hm
    simp [summarySetBlock, hw, hl, Option.isSome_iff_ne_none.mp hh,
      Option.isSome_iff_ne_none.mp hc, Option.isSome_iff_ne_none.mp hb, hm]

/-- C8 witness: the validation theorem applied with a concrete registry: one
access point at address 1 supporting channel 6 (and, to exercise the ambiguous
guard, a registry entry listing the same block twice at address 2). -/
theorem c8_block_setter_validation_witness :
    summarySetBlock [(1, ⟨1, [⟨1, 5, 6, 0⟩]⟩)] none
        (.dict ⟨none, some 5, some 6, some 0⟩) =
      (none, some (.keyError "wtp")) ∧
    summarySetBlock [(1, ⟨1, [⟨1, 5, 6, 0⟩]⟩)] none
        (.dict ⟨some 1, none, some 6, some 0⟩) =
      (none, some (.missingField "hwaddr")) ∧
    summarySetBlock [(1, ⟨1, [⟨1, 5, 6, 0⟩]⟩)] none
        (.dict ⟨some 1, some 5, none, some 0⟩) =
      (none, some (.missingField "channel")) ∧
    summarySetBlock [(1, ⟨1, [⟨1, 5, 6, 0⟩]⟩)] none
        (.dict ⟨some 1, some 5, some 6, none⟩) =
      (none, some (.missingField "band")) ∧
    summarySetBlock [(1, ⟨1, [⟨1, 5, 6, 0⟩]⟩)] none
        (.dict ⟨some 1, some 5, some 11, some 0⟩) =
      (none, some .noMatch) ∧
    summarySetBlock [(2, ⟨2, [⟨2, 5, 6, 0⟩, ⟨2, 5, 6, 0⟩]⟩)] none
        (.dict ⟨some 2, some 5, some 6, some 0⟩) =
      (none, some .ambiguous) := by
  have h1 := c8_block_setter_validation [(1, ⟨1, [⟨1, 5, 6, 0⟩]⟩)] none
  have h2 := c8_block_setter_validation [(2, ⟨2, [⟨2, 5, 6, 0⟩, ⟨2, 5, 6, 0⟩]⟩)] none
  refine ⟨h1.1 _ rfl, h1.2.1 _ 1 _ rfl rfl rfl, h1.2.2.1 _ 1 _ rfl rfl rfl rfl,
    h1.2.2.2.1 _ 1 _ rfl rfl rfl rfl rfl,
    h1.2.2.2.2.1 _ 1 _ rfl rfl rfl rfl rfl (by decide),
    h2.2.2.2.2.2 _ 2 _ ⟨2, 5, 6, 0⟩ ⟨2, 5, 6, 0⟩ [] rfl rfl rfl rfl rfl (by decide)⟩

/-! ## Claim C6: unload idempotence -/

/-- C6 counterexample: the claim states that a second unload of the same
module sends no further wire message; with the access point's connection open,
the second call re-sends the `DEL_SUMMARY` teardown (the send is guarded only
by the connection state, not by registry membership). -/
theorem c6_unload_counterexample :
    (unload (fun _ => true)
        (unload (fun _ => true) [(7, ⟨3, 2, 6, 0⟩)] ⟨7, ⟨3, 2, 6, 0⟩⟩).1
        ⟨7, ⟨3, 2, 6, 0⟩⟩).2 = [.delSummary 3 7] ∧
    ([WireMsg.delSummary 3 7] ≠ []) := by
  constructor
  · rfl
  · decide

/-- C6 (amended): unload deregisters the module from the worker's registry and
sends the teardown wire message only if the access point's connection is open;
a second unload of the same module makes no further registry change, but it
repeats the teardown send whenever the connection is open — it is
side-effect-free only on the registry, or entirely when the connection is
closed. -/
theorem c6_unload_registry_idempotent (connOpen : Nat → Bool) (reg : Registry)
    (m : SummaryModule) :
    (∀ mb ∈ (unload connOpen reg m).1, mb.1 ≠ m.moduleId) ∧
    (connOpen m.block.radio = true →
      (unload connOpen reg m).2 = [.delSummary m.block.radio m.moduleId]) ∧
    (connOpen m.block.radio = false → (unload connOpen reg m).2 = []) ∧
    (unload connOpen (unload connOpen reg m).1 m).1 = (unload connOpen reg m).1 ∧
    (unload connOpen (unload connOpen reg m).1 m).2 = (unload connOpen reg m).2 := by
  refine ⟨?_, ?_, ?_, ?_, ?_⟩
  · intro mb hmb
    cases h : connOpen m.block.radio <;>
      simp [unload, remove_module, h, List.mem_filter] at hmb <;>
      exact hmb.2
  · intro h; simp [unload, h]
  · intro h; simp [unload, h]
  · cases h : connOpen m.block.radio <;>
      simp [unload, remove_module, h, List.filter_filter]
  · cases h : connOpen m.block.radio <;> simp [unload, h]

/-- C6 witness: the amended theorem applied to a concrete registry holding one
module bound to access point 3, with every connection open. -/
theorem c6_unload_registry_idempotent_witness :
    (∀ mb ∈ (unload (fun _ => true) [(7, ⟨3, 2, 6, 0⟩)] ⟨7, ⟨3, 2, 6, 0⟩⟩).1,
      mb.1 ≠ 7) ∧
    (unload (fun _ => true) [(7, ⟨3, 2, 6, 0⟩)] ⟨7, ⟨3, 2, 6, 0⟩⟩).2 =
      [.delSummary 3 7] := by
  have h := c6_unload_registry_idempotent (fun _ => true) [(7, ⟨3, 2, 6, 0⟩)]
    ⟨7, ⟨3, 2, 6, 0⟩⟩
  exact ⟨h.1, h.2.1 rfl⟩

/-! ## Claim C7: worker reaction to an access-point bye event -/

theorem foldl_remove_module (ids : List Nat) (reg : Registry) :
    ids.foldl remove_module reg = reg.filter (fun m => !ids.contains m.1) := by
  induction ids generalizing reg with
  | nil => simp
  | cons i ids ih =>
    rw [List.foldl_cons, ih, remove_module, List.filter_filter]
    apply List.filter_congr
    intro m _
    simp only [List.contains_cons, Bool.not_or]
    rw [Bool.and_comm]
    rfl

/-- C7: on a bye event from access point X, the worker removes from its
registry exactly the modules whose bound block is an element of X's supported
pool — leaving every other module untouched — and sends no wire message (the
bye handler calls `remove_module`, which never touches connections). The
hypothesis states that registry keys are unique (they come from a dict). -/
theorem c7_handle_bye (reg : Registry) (w : Wtp)
    (hnd : (reg.map Prod.fst).Nodup) :
    (handle_bye reg w).1 = reg.filter (fun m => decide (m.2 ∉ w.supports)) ∧
    (handle_bye reg w).2 = [] := by
  refine ⟨?_, rfl⟩
  show ((reg.filter (fun m => m.2 ∈ w.supports)).map Prod.fst).foldl
      remove_module reg = _
  rw [foldl_remove_module]
  apply List.filter_congr
  intro m hm
  by_cases hs : m.2 ∈ w.supports
  · have hmem : m.1 ∈ (reg.filter (fun m => m.2 ∈ w.supports)).map Prod.fst :=
      List.mem_map.mpr ⟨m, List.mem_filter.mpr ⟨hm, by simpa using hs⟩, rfl⟩
    simp [hs, hmem]
  · have hmem : m.1 ∉ (reg.filter (fun m => m.2 ∈ w.supports)).map Prod.fst := by
      intro hmem
      obtain ⟨m', hm', hfst⟩ := List.mem_map.mp hmem
      have hm'2 := List.mem_filter.mp hm'
      have hmm : m' = m := List.inj_on_of_nodup_map hnd hm'2.1 hm hfst
      subst hmm
      exact hs (by simpa using hm'2.2)
    simp [hs, hmem]

/-- C7 witness: a registry with two modules, one bound to a block supported by
the leaving access point and one bound elsewhere; only the first is removed
and no message is sent. -/
theorem c7_handle_bye_witness :
    (handle_bye [(1, ⟨3, 2, 6, 0⟩), (2, ⟨4, 9, 11, 1⟩)] ⟨3, [⟨3, 2, 6, 0⟩]⟩).1 =
      [(2, ⟨4, 9, 11, 1⟩)] ∧
    (handle_bye [(1, ⟨3, 2, 6, 0⟩), (2, ⟨4, 9, 11, 1⟩)] ⟨3, [⟨3, 2, 6, 0⟩]⟩).2 =
      [] := by
  have h := c7_handle_bye [(1, ⟨3, 2, 6, 0⟩), (2, ⟨4, 9, 11, 1⟩)]
    ⟨3, [⟨3, 2, 6, 0⟩]⟩ (by decide)
  refine ⟨?_, h.2⟩
  rw [h.1]
  decide

/-! ## Claim C2: client-global attribute setters -/

/-- C2 counterexample: the claim states that changing the broadcast SSID list
sends one "add client" message to the access point of every bound entry; on an
LVAP with one bound downlink entry, setting `ssids` from `[]` to `["net"]`
(a genuine change) sends no message at all. -/
theorem c2_ssids_counterexample :
    (setSsids ⟨1, 0, 0, none, [], [⟨2, 3, 6, 0⟩], []⟩ ["net"]).2 = [] ∧
    (["net"] : List String) ≠ (⟨1, 0, 0, none, [], [⟨2, 3, 6, 0⟩], []⟩ : Lvap).ssids ∧
    (⟨1, 0, 0, none, [], [⟨2, 3, 6, 0⟩], []⟩ : Lvap).downlink.length = 1 := by
  refine ⟨rfl, ?_, rfl⟩
  decide

/-- C2 (amended): for the encapsulation address, association id and associated
SSID, setting a new value stores it and sends one fresh "add client" message
to the access point of every bound downlink entry (replace mask) and every
bound uplink entry (merge mask), while setting a value equal to the current
one sends no message; the broadcast SSID list setter, by contrast, stores the
new list unconditionally and never sends any message. -/
theorem c2_attribute_setters (l : Lvap) (e aid : Nat) (s : Option String)
    (ss : List String) :
    (l.encap ≠ e →
      setEncap l (some e) =
        ({ l with encap := e }, sendAddAll { l with encap := e }) ∧
      (setEncap l (some e)).2.length = l.downlink.length + l.uplink.length) ∧
    (l.encap = e → setEncap l (some e) = (l, [])) ∧
    (l.assocId ≠ aid →
      setAssocId l aid =
        ({ l with assocId := aid }, sendAddAll { l with assocId := aid }) ∧
      (setAssocId l aid).2.length = l.downlink.length + l.uplink.length) ∧
    (l.assocId = aid → setAssocId l aid = (l, [])) ∧
    (l.ssid ≠ s →
      setSsid l s = ({ l with ssid := s }, sendAddAll { l with ssid := s }) ∧
      (setSsid l s).2.length = l.downlink.length + l.uplink.length) ∧
    (l.ssid = s → setSsid l s = (l, [])) ∧
    (setSsids l ss = ({ l with ssids := ss }, [])) := by
  refine ⟨?_, ?_, ?_, ?_, ?_, ?_, rfl⟩
  · intro h
    constructor
    · simp [setEncap, h]
    · simp [setEncap, h, sendAddAll_length]
  · intro h; simp [setEncap, h]
  · intro h
    constructor
    · simp [setAssocId, h]
    · simp [setAssocId, h, sendAddAll_length]
  · intro h; simp [setAssocId, h]
  · intro h
    constructor
    · simp [setSsid, h]
    · simp [setSsid, h, sendAddAll_length]
  · intro h; simp [setSsid, h]

/-- C2 witness: the amended theorem applied to a concrete LVAP with one
downlink and one uplink entry: changing the association id from 0 to 5 sends
exactly two messages, re-writing 0 sends none, and changing the SSID list
sends none. -/
theorem c2_attribute_setters_witness :
    (setAssocId ⟨1, 0, 0, none, [], [⟨2, 3, 6, 0⟩], [⟨4, 5, 11, 0⟩]⟩ 5).2.length = 2 ∧
    setAssocId ⟨1, 0, 0, none, [], [⟨2, 3, 6, 0⟩], [⟨4, 5, 11, 0⟩]⟩ 0 =
      (⟨1, 0, 0, none, [], [⟨2, 3, 6, 0⟩], [⟨4, 5, 11, 0⟩]⟩, []) ∧
    (setSsids ⟨1, 0, 0, none, [], [⟨2, 3, 6, 0⟩], [⟨4, 5, 11, 0⟩]⟩ ["a"]).2 = [] := by
  have h5 := c2_attribute_setters ⟨1, 0, 0, none, [], [⟨2, 3, 6, 0⟩], [⟨4, 5, 11, 0⟩]⟩
    0 5 none ["a"]
  have h0 := c2_attribute_setters ⟨1, 0, 0, none, [], [⟨2, 3, 6, 0⟩], [⟨4, 5, 11, 0⟩]⟩
    0 0 none ["a"]
  refine ⟨?_, h0.2.2.2.1 rfl, ?_⟩
  · rw [(h5.2.2.1 (by decide)).2]
    rfl
  · rw [h5.2.2.2.2.2.2]

/-! ## Observations on downlink-setter results -/

/-- The LVAP state a downlink-setter result leaves behind (`none` on a
`TypeError`, where the state is untouched but the call never returns
normally). -/
def SetDownlinkResult.state : SetDownlinkResult → Option Lvap
  | .typeError => none
  | .ok l _ _ => some l

/-- The final state of the caller's pool argument in a downlink-setter
result. -/
def SetDownlinkResult.poolAfter : SetDownlinkResult → Option ResourcePool
  | .typeError => none
  | .ok _ p _ => p

/-- The event trace of a downlink-setter result. -/
def SetDownlinkResult.trace : SetDownlinkResult → List Event
  | .typeError => []
  | .ok _ _ t => t

theorem delBlocks_append (s t : List Event) :
    delBlocks (s ++ t) = delBlocks s ++ delBlocks t := by
  simp [delBlocks]

theorem addBlocks_append (s t : List Event) :
    addBlocks (s ++ t) = addBlocks s ++ addBlocks t := by
  simp [addBlocks]

theorem addBlocksRepl_append (s t : List Event) :
    addBlocksRepl (s ++ t) = addBlocksRepl s ++ addBlocksRepl t := by
  simp [addBlocksRepl]

theorem addBlocksMerge_append (s t : List Event) :
    addBlocksMerge (s ++ t) = addBlocksMerge s ++ addBlocksMerge t := by
  simp [addBlocksMerge]

theorem delBlocks_delPortEvents (connOpen : Nat → Bool)
    (h : ∀ n, connOpen n = true) (xs : List ResourceBlock) :
    delBlocks ((xs.map (delPortEvents connOpen)).flatten) = xs := by
  induction xs with
  | nil => rfl
  | cons x xs ih =>
    rw [List.map_cons, List.flatten_cons, delBlocks_append, ih]
    simp [delPortEvents, h, delBlocks]

theorem addBlocks_delPortEvents (connOpen : Nat → Bool)
    (xs : List ResourceBlock) :
    addBlocks ((xs.map (delPortEvents connOpen)).flatten) = [] := by
  induction xs with
  | nil => rfl
  | cons x xs ih =>
    rw [List.map_cons, List.flatten_cons, addBlocks_append, ih]
    by_cases h : connOpen x.radio <;> simp [delPortEvents, h, addBlocks]

theorem addBlocksRepl_delPortEvents (connOpen : Nat → Bool)
    (xs : List ResourceBlock) :
    addBlocksRepl ((xs.map (delPortEvents connOpen)).flatten) = [] := by
  induction xs with
  | nil => rfl
  | cons x xs ih =>
    rw [List.map_cons, List.flatten_cons, addBlocksRepl_append, ih]
    by_cases h : connOpen x.radio <;> simp [delPortEvents, h, addBlocksRepl]

theorem addBlocksMerge_delPortEvents (connOpen : Nat → Bool)
    (xs : List ResourceBlock) :
    addBlocksMerge ((xs.map (delPortEvents connOpen)).flatten) = [] := by
  induction xs with
  | nil => rfl
  | cons x xs ih =>
    rw [List.map_cons, List.flatten_cons, addBlocksMerge_append, ih]
    by_cases h : connOpen x.radio <;> simp [delPortEvents, h, addBlocksMerge]

theorem delBlocks_addPortEvents (l : Lvap) (flag : Bool)
    (xs : List ResourceBlock) :
    delBlocks (xs.map fun blk => addPortEvent l blk flag) = [] := by
  induction xs with
  | nil => rfl
  | cons x xs ih => simp [delBlocks, addPortEvent, ih]

theorem addBlocks_addPortEvents (l : Lvap) (flag : Bool)
    (xs : List ResourceBlock) :
    addBlocks (xs.map fun blk => addPortEvent l blk flag) = xs := by
  induction xs with
  | nil => rfl
  | cons x xs ih => exact congrArg (fun t => x :: t) ih

theorem addBlocksRepl_addPortEvents_merge (l : Lvap) (xs : List ResourceBlock) :
    addBlocksRepl (xs.map fun blk => addPortEvent l blk false) = [] := by
  induction xs with
  | nil => rfl
  | cons x xs ih => simp [addBlocksRepl, addPortEvent, ih]

theorem addBlocksMerge_addPortEvents_merge (l : Lvap) (xs : List ResourceBlock) :
    addBlocksMerge (xs.map fun blk => addPortEvent l blk false) = xs := by
  induction xs with
  | nil => rfl
  | cons x xs ih => exact congrArg (fun t => x :: t) ih

theorem delBlocks_clearTables_cons (t : List Event) :
    delBlocks (.clearTables :: t) = delBlocks t := rfl

theorem addBlocks_clearTables_cons (t : List Event) :
    addBlocks (.clearTables :: t) = addBlocks t := rfl

theorem addBlocksRepl_clearTables_cons (t : List Event) :
    addBlocksRepl (.clearTables :: t) = addBlocksRepl t := rfl

theorem addBlocksMerge_clearTables_cons (t : List Event) :
    addBlocksMerge (.clearTables :: t) = addBlocksMerge t := rfl

theorem delBlocks_mid (l : Lvap) (b : ResourceBlock) (flag : Bool) :
    delBlocks [addPortEvent l b flag, .setPorts, .setTables] = [] := rfl

theorem addBlocks_mid (l : Lvap) (b : ResourceBlock) (flag : Bool) :
    addBlocks [addPortEvent l b flag, .setPorts, .setTables] = [b] := rfl

theorem addBlocksRepl_mid (l : Lvap) (b : ResourceBlock) :
    addBlocksRepl [addPortEvent l b true, .setPorts, .setTables] = [b] := rfl

theorem addBlocksMerge_mid (l : Lvap) (b : ResourceBlock) :
    addBlocksMerge [addPortEvent l b true, .setPorts, .setTables] = [] := rfl

/-! ## Claim C3: rebinding to a different pool -/

/-- C3: when a non-empty pool not set-equal to the current combined binding is
assigned to the downlink setter (with all access-point connections open), every
existing downlink and uplink entry is deleted, each firing exactly one wire
teardown; one block is extracted from the pool via `pop()` and becomes the sole
downlink entry (added with replace semantics), and every remaining block is
bound uplink-only (added with merge semantics); afterwards the downlink table
is exactly the popped element of the pool and the uplink table exactly the
other elements. -/
theorem c3_rebind_to_new_pool (connOpen : Nat → Bool) (l : Lvap)
    (b : ResourceBlock) (rest : ResourcePool)
    (hconn : ∀ n, connOpen n = true)
    (hne : poolEq (l.downlink ++ l.uplink) (b :: rest) = false) :
    (lvapSetDownlink connOpen l (.pool (b :: rest))).state =
      some { l with downlink := [b], uplink := rest } ∧
    (lvapSetDownlink connOpen l (.pool (b :: rest))).poolAfter = some rest ∧
    delBlocks (lvapSetDownlink connOpen l (.pool (b :: rest))).trace =
      l.downlink ++ l.uplink ∧
    addBlocks (lvapSetDownlink connOpen l (.pool (b :: rest))).trace =
      b :: rest ∧
    addBlocksRepl (lvapSetDownlink connOpen l (.pool (b :: rest))).trace = [b] ∧
    addBlocksMerge (lvapSetDownlink connOpen l (.pool (b :: rest))).trace =
      rest := by
  have hres : lvapSetDownlink connOpen l (.pool (b :: rest)) =
      .ok { l with downlink := [b], uplink := rest } (some rest)
        (.clearTables ::
          ((l.downlink ++ l.uplink).map (delPortEvents connOpen)).flatten ++
          [addPortEvent { l with downlink := [b], uplink := rest } b true,
            .setPorts, .setTables] ++
          rest.map
            (fun blk =>
              addPortEvent { l with downlink := [b], uplink := rest } blk
                false)) := by
    simp [lvapSetDownlink, setDownlinkCore, hne]
  rw [hres]
  refine ⟨rfl, rfl, ?_, ?_, ?_, ?_⟩
  · rw [SetDownlinkResult.trace, delBlocks_append, delBlocks_append,
      delBlocks_clearTables_cons, delBlocks_delPortEvents connOpen hconn,
      delBlocks_mid, delBlocks_addPortEvents]
    simp
  · rw [SetDownlinkResult.trace, addBlocks_append, addBlocks_append,
      addBlocks_clearTables_cons, addBlocks_delPortEvents, addBlocks_mid,
      addBlocks_addPortEvents]
    simp
  · rw [SetDownlinkResult.trace, addBlocksRepl_append, addBlocksRepl_append,
      addBlocksRepl_clearTables_cons, addBlocksRepl_delPortEvents,
      addBlocksRepl_mid, addBlocksRepl_addPortEvents_merge]
    simp
  · rw [SetDownlinkResult.trace, addBlocksMerge_append, addBlocksMerge_append,
      addBlocksMerge_clearTables_cons, addBlocksMerge_delPortEvents,
      addBlocksMerge_mid, addBlocksMerge_addPortEvents_merge]
    simp

/-- C3 witness: rebinding an LVAP bound to one downlink and one uplink block
to a disjoint two-block pool: two deletes, a replace-add of the popped block
and a merge-add of the remaining one. -/
theorem c3_rebind_to_new_pool_witness :
    poolEq ([⟨1, 10, 6, 0⟩] ++ [⟨2, 11, 6, 0⟩]) [⟨3, 12, 36, 1⟩, ⟨4, 13, 40, 1⟩]
      = false ∧
    (lvapSetDownlink (fun _ => true)
        ⟨9, 0, 0, none, [], [⟨1, 10, 6, 0⟩], [⟨2, 11, 6, 0⟩]⟩
        (.pool [⟨3, 12, 36, 1⟩, ⟨4, 13, 40, 1⟩])).state =
      some ⟨9, 0, 0, none, [], [⟨3, 12, 36, 1⟩], [⟨4, 13, 40, 1⟩]⟩ := by
  have h := c3_rebind_to_new_pool (fun _ => true)
    ⟨9, 0, 0, none, [], [⟨1, 10, 6, 0⟩], [⟨2, 11, 6, 0⟩]⟩
    ⟨3, 12, 36, 1⟩ [⟨4, 13, 40, 1⟩] (fun _ => rfl) (by decide)
  exact ⟨by decide, h.1⟩

/-! ## Claim C4: refresh on a set-equal pool -/

/-- C4: assigning a pool set-equal to the union of the current downlink and
uplink keys is a refresh: the setter re-issues virtual-port setup and
flow-table programming (`set_ports`; `clear_tables`; `set_tables`) and
returns, with the tables unchanged, the caller's pool untouched, and zero wire
messages — in particular zero adds and zero deletes. -/
theorem c4_refresh_set_equal (connOpen : Nat → Bool) (l : Lvap)
    (p : ResourcePool) (hpne : p ≠ [])
    (heq : poolEq (l.downlink ++ l.uplink) p = true) :
    lvapSetDownlink connOpen l (.pool p) =
      .ok l (some p) [.setPorts, .clearTables, .setTables] ∧
    wireMsgs (lvapSetDownlink connOpen l (.pool p)).trace = [] ∧
    delBlocks (lvapSetDownlink connOpen l (.pool p)).trace = [] ∧
    addBlocks (lvapSetDownlink connOpen l (.pool p)).trace = [] := by
  obtain ⟨x, xs, rfl⟩ := List.exists_cons_of_ne_nil hpne
  have hres : lvapSetDownlink connOpen l (.pool (x :: xs)) =
      .ok l (some (x :: xs)) [.setPorts, .clearTables, .setTables] := by
    simp [lvapSetDownlink, setDownlinkCore, heq]
  exact ⟨hres, by rw [hres]; rfl, by rw [hres]; rfl, by rw [hres]; rfl⟩

/-- C4 witness: re-assigning the current two-block binding, listed in the
opposite order (set-equal but not list-equal), refreshes and sends nothing. -/
theorem c4_refresh_set_equal_witness :
    ([⟨2, 11, 6, 0⟩, ⟨1, 10, 6, 0⟩] : ResourcePool) ≠ [] ∧
    poolEq ([⟨1, 10, 6, 0⟩] ++ [⟨2, 11, 6, 0⟩]) [⟨2, 11, 6, 0⟩, ⟨1, 10, 6, 0⟩]
      = true ∧
    lvapSetDownlink (fun _ => true)
        ⟨9, 0, 0, none, [], [⟨1, 10, 6, 0⟩], [⟨2, 11, 6, 0⟩]⟩
        (.pool [⟨2, 11, 6, 0⟩, ⟨1, 10, 6, 0⟩]) =
      .ok ⟨9, 0, 0, none, [], [⟨1, 10, 6, 0⟩], [⟨2, 11, 6, 0⟩]⟩
        (some [⟨2, 11, 6, 0⟩, ⟨1, 10, 6, 0⟩])
        [.setPorts, .clearTables, .setTables] := by
  have h := c4_refresh_set_equal (fun _ => true)
    ⟨9, 0, 0, none, [], [⟨1, 10, 6, 0⟩], [⟨2, 11, 6, 0⟩]⟩
    [⟨2, 11, 6, 0⟩, ⟨1, 10, 6, 0⟩] (by decide) (by decide)
  exact ⟨by decide, by decide, h.1⟩

/-! ## Claim C5: access-point handover with no matching resource -/

/-- C5: assigning a target access point to an LVAP with a non-empty downlink
binding intersects the target's supported pool with the singleton of the
current default block; when the intersection is empty, `None` is assigned to
the downlink setter, which returns immediately: the downlink and uplink
tables are unchanged, no message is sent and no error is raised. -/
theorem c5_wtp_no_match_noop (connOpen : Nat → Bool) (l : Lvap) (w : Wtp)
    (db : ResourceBlock) (dtl : List ResourceBlock)
    (hdl : l.downlink = db :: dtl)
    (hmatch : w.supports.filter (fun b => blockMatch b db) = []) :
    lvapSetWtp connOpen l w = some (.ok l none []) := by
  simp [lvapSetWtp, hdl, hmatch, lvapSetDownlink]

/-- C5 witness: a handover target supporting only channel 36 for an LVAP whose
default block is on channel 6 leaves the binding untouched. -/
theorem c5_wtp_no_match_noop_witness :
    lvapSetWtp (fun _ => true)
        ⟨9, 0, 0, none, [], [⟨1, 10, 6, 0⟩], [⟨2, 11, 6, 0⟩]⟩
        ⟨5, [⟨5, 12, 36, 1⟩]⟩ =
      some (.ok ⟨9, 0, 0, none, [], [⟨1, 10, 6, 0⟩], [⟨2, 11, 6, 0⟩]⟩ none []) := by
  exact c5_wtp_no_match_noop (fun _ => true)
    ⟨9, 0, 0, none, [], [⟨1, 10, 6, 0⟩], [⟨2, 11, 6, 0⟩]⟩
    ⟨5, [⟨5, 12, 36, 1⟩]⟩ ⟨1, 10, 6, 0⟩ [] rfl (by decide)

/-! ## Claim C9: mutation of the caller's pool argument -/

/-- C9: on the rebind path the downlink setter pops exactly one block out of
the caller's ResourcePool argument, which on return equals the list of blocks
bound as uplink-only entries; on the falsy and refresh paths the argument is
returned unchanged, and when a lone ResourceBlock is passed no pool argument
exists to mutate (the setter builds a fresh singleton pool internally). -/
theorem c9_pool_argument_mutation (connOpen : Nat → Bool) (l : Lvap)
    (b : ResourceBlock) (rest p : ResourcePool) (blk : ResourceBlock)
    (hne : poolEq (l.downlink ++ l.uplink) (b :: rest) = false)
    (hpne : p ≠ []) (heq : poolEq (l.downlink ++ l.uplink) p = true) :
    ((lvapSetDownlink connOpen l (.pool (b :: rest))).poolAfter = some rest ∧
      (lvapSetDownlink connOpen l (.pool (b :: rest))).state =
        some { l with downlink := [b], uplink := rest }) ∧
    (lvapSetDownlink connOpen l (.pool p)).poolAfter = some p ∧
    lvapSetDownlink connOpen l (.pool []) = .ok l (some []) [] ∧
    lvapSetDownlink connOpen l .nothing = .ok l none [] ∧
    (lvapSetDownlink connOpen l (.block blk)).poolAfter = none := by
  refine ⟨⟨?_, ?_⟩, ?_, rfl, rfl, ?_⟩
  · simp [lvapSetDownlink, setDownlinkCore, hne, SetDownlinkResult.poolAfter]
  · simp [lvapSetDownlink, setDownlinkCore, hne, SetDownlinkResult.state]
  · obtain ⟨x, xs, rfl⟩ := List.exists_cons_of_ne_nil hpne
    simp [lvapSetDownlink, setDownlinkCore, heq, SetDownlinkResult.poolAfter]
  · simp only [lvapSetDownlink]
    rfl

/-- C9 witness: the mutation theorem applied to the concrete LVAP of the C3
witness, exercising the rebind, refresh, empty-pool, `None` and lone-block
paths at once. -/
theorem c9_pool_argument_mutation_witness :
    ((lvapSetDownlink (fun _ => true)
        ⟨9, 0, 0, none, [], [⟨1, 10, 6, 0⟩], [⟨2, 11, 6, 0⟩]⟩
        (.pool [⟨3, 12, 36, 1⟩, ⟨4, 13, 40, 1⟩])).poolAfter =
      some [⟨4, 13, 40, 1⟩]) ∧
    (lvapSetDownlink (fun _ => true)
        ⟨9, 0, 0, none, [], [⟨1, 10, 6, 0⟩], [⟨2, 11, 6, 0⟩]⟩
        (.pool [⟨2, 11, 6, 0⟩, ⟨1, 10, 6, 0⟩])).poolAfter =
      some [⟨2, 11, 6, 0⟩, ⟨1, 10, 6, 0⟩] ∧
    (lvapSetDownlink (fun _ => true)
        ⟨9, 0, 0, none, [], [⟨1, 10, 6, 0⟩], [⟨2, 11, 6, 0⟩]⟩
        (.block ⟨3, 12, 36, 1⟩)).poolAfter = none := by
  have h := c9_pool_argument_mutation (fun _ => true)
    ⟨9, 0, 0, none, [], [⟨1, 10, 6, 0⟩], [⟨2, 11, 6, 0⟩]⟩
    ⟨3, 12, 36, 1⟩ [⟨4, 13, 40, 1⟩] [⟨2, 11, 6, 0⟩, ⟨1, 10, 6, 0⟩]
    ⟨3, 12, 36, 1⟩ (by decide) (by decide) (by decide)
  exact ⟨h.1.1, h.2.1, h.2.2.2.2⟩

end Empower
